import Mathlib

/-!
# Verification of the Job Coach corpus-building pipeline

Shallow embedding of `src/job_coach_app_optimized.py`, centred on the
`create_index` corpus builder (lines 33-92), the `load_data` loader
(lines 23-30) and the summary metrics (lines 112-120).

Modelling conventions:
* A pandas cell is `Cell`: missing (`NaN`), a number (machine floats are
  modelled as exact rationals), or a string (an object-dtype cell).
* Python exceptions are values of `PyError` threaded through `Except`;
  the builder's top-level `try/except` corresponds to mapping the
  `Except.error` outcome to the returned `None`.
* The UI and the external vector-index/LLM libraries are out of scope
  (the spec lists them as external collaborators); `create_index` is
  modelled up to the document list that is handed to the external
  indexing call, which is the observable the spec talks about.
-/

set_option autoImplicit false

namespace JobCoach

/-- One pandas cell: missing (NaN), numeric, or a string.
Machine floats are modelled as exact rationals. -/
inductive Cell : Type where
  | na : Cell
  | num : ℚ → Cell
  | str : String → Cell
deriving DecidableEq, Repr

/-- One row of the loaded table, with the six columns `create_index`
reads (lines 43-48 of the source). -/
structure Row : Type where
  socCode : Cell
  jobTitle : Cell
  growthRate : Cell
  annualOpenings : Cell
  education : Cell
  skills : Cell
deriving DecidableEq, Repr

/-- A Python exception kind, as far as the builder can raise one. -/
inductive PyError : Type where
  | typeError : PyError
  | valueError : PyError
deriving DecidableEq, Repr

/-- `pd.isna` on a cell. -/
def pdIsna : Cell → Bool
  | Cell.na => true
  | _ => false

/-- Whether a cell holds a string (object dtype). Used to state
side conditions decidably. -/
def isStrCell : Cell → Bool
  | Cell.str _ => true
  | _ => false

/-- Whether a cell holds a number. Used to state side conditions
decidably. -/
def isNumCell : Cell → Bool
  | Cell.num _ => true
  | _ => false

/-- Python whitespace, as stripped by `str.strip()` (ASCII fragment). -/
def pySpace (c : Char) : Bool :=
  c == ' ' || c == '\t' || c == '\n' || c == '\r' || c == '\x0b' || c == '\x0c'

/-- Python `str.strip()`: drop leading and trailing whitespace. -/
def pyStrip (s : String) : String :=
  String.mk (((s.data.dropWhile pySpace).reverse.dropWhile pySpace).reverse)

/-- Python `str.lower()` (ASCII fragment of Unicode lowercasing). -/
def pyLower (s : String) : String :=
  String.mk (s.data.map Char.toLower)

/-- Rendering of a numeric cell by Python `str`/f-string formatting.
The exact digit string is abstracted; no verified property depends on
its output. -/
def numRepr (q : ℚ) : String :=
  toString q

/-- Python `str(cell)` / f-string interpolation of a raw cell.
`str(float("nan"))` is `"nan"`. -/
def pyStr : Cell → String
  | Cell.na => "nan"
  | Cell.num q => numRepr q
  | Cell.str s => s

/-- Decimal digits of a char list, as a natural number; `none` when a
non-digit occurs. -/
def digitsVal : List Char → Option ℕ
  | [] => some 0
  | c :: cs =>
      if c.isDigit then
        (digitsVal cs).map (fun n => (c.toNat - 48) * 10 ^ cs.length + n)
      else
        none

/-- Python `float(string)` on plain decimal literals: optional sign,
digits, optional fractional part (exponents/inf/nan are out of scope;
the builder never reaches `float` on a string, see `pyGt15`). -/
def parsePyFloat (s : String) : Option ℚ :=
  let t := (pyStrip s).data
  let signed : ℚ × List Char :=
    match t with
    | '-' :: r => (-1, r)
    | '+' :: r => (1, r)
    | r => (1, r)
  match signed.2.splitOn '.' with
  | [ip] =>
      if ip.isEmpty then none
      else (digitsVal ip).map (fun n => signed.1 * n)
  | [ip, fp] =>
      if ip.isEmpty && fp.isEmpty then none
      else
        match digitsVal ip, digitsVal fp with
        | some n, some m => some (signed.1 * ((n : ℚ) + (m : ℚ) / 10 ^ fp.length))
        | _, _ => none
  | _ => none

/-- Python `float(cell)` (line 75 of the source). A numeric cell is
returned unchanged; a string is parsed (`ValueError` on failure).
`Cell.na` never reaches this function in the builder: rows with a
missing growth rate are skipped at line 52; `float(nan)` is modelled
as an unused `0`. -/
def pyFloat : Cell → Except PyError ℚ
  | Cell.na => Except.ok 0
  | Cell.num q => Except.ok q
  | Cell.str s =>
      match parsePyFloat s with
      | some q => Except.ok q
      | none => Except.error PyError.valueError

/-- Python `growth_rate > 15` (line 69 of the source). Comparing a
string against a number raises `TypeError`; `nan > 15` is `False`
(the `nan` case is unreachable in the builder, see line 52). -/
def pyGt15 : Cell → Except PyError Bool
  | Cell.na => Except.ok false
  | Cell.num q => Except.ok (decide (15 < q))
  | Cell.str _ => Except.error PyError.typeError

/-- The metadata mapping attached at lines 72-77. -/
structure Metadata : Type where
  soc_code : String
  job_title : String
  growth_rate : ℚ
  education : String
deriving DecidableEq, Repr

/-- One llama-index `Document`: the stripped text block plus metadata
(line 79). -/
structure Document : Type where
  text : String
  metadata : Metadata
deriving DecidableEq, Repr

/-- The f-string template of lines 61-70, with the interpolated values
as arguments and the `> 15` comparison result as `highGrowth`.
Indentation (16 spaces per line, and a 16-space blank line before the
trailing sentence) is reproduced verbatim. -/
def text_content (job_title socStr grStr annual_openings education skills : String)
    (highGrowth : Bool) : String :=
  "\n                Job Title: " ++ (job_title ++
  ("\n                SOC Code: " ++ (socStr ++
  ("\n                Growth Rate: " ++ (grStr ++
  ("% projected growth from 2023 to 2033\n                Annual Job Openings: " ++ (annual_openings ++
  ("\n                Education Required: " ++ (education ++
  ("\n                Key Skills Needed: " ++ (skills ++
  ("\n                \n                " ++ (job_title ++
  (" is experiencing " ++ (grStr ++
  ("% growth through 2033. This role typically requires " ++ (pyLower education ++
  (" and offers career prospects in a " ++
  ((if highGrowth then "high-growth" else "stable") ++
  " field.\n                ")))))))))))))))))))

/-- Line 57: `str(row[openings_col]) if pd.notna(...) else "Data not available"`. -/
def annual_openings_of (row : Row) : String :=
  if !pdIsna row.annualOpenings then pyStr row.annualOpenings else "Data not available"

/-- Line 58: `str(row[education_col]) if pd.notna(...) else "Not specified"`. -/
def education_of (row : Row) : String :=
  if !pdIsna row.education then pyStr row.education else "Not specified"

/-- Line 59: `str(row[skills_col]) if pd.notna(...) else "Skills data not available"`. -/
def skills_of (row : Row) : String :=
  if !pdIsna row.skills then pyStr row.skills else "Skills data not available"

/-- The body of the `for` loop at lines 51-80, for one row: `ok none`
when the row is skipped (missing title or growth rate, line 52),
`ok (some doc)` when a document is built, `error e` when a Python
exception is raised (string-valued growth rate at line 69). -/
def processRow (row : Row) : Except PyError (Option Document) :=
  if pdIsna row.jobTitle || pdIsna row.growthRate then Except.ok none
  else
    let job_title := pyStrip (pyStr row.jobTitle)
    let growth_rate := row.growthRate
    let annual_openings := annual_openings_of row
    let education := education_of row
    let skills := skills_of row
    match pyGt15 growth_rate with
    | Except.error e => Except.error e
    | Except.ok hg =>
        let text := text_content job_title (pyStr row.socCode) (pyStr growth_rate)
          annual_openings education skills hg
        match pyFloat growth_rate with
        | Except.error e => Except.error e
        | Except.ok gr =>
            Except.ok (some
              { text := pyStrip text
                metadata :=
                  { soc_code := pyStr row.socCode
                    job_title := job_title
                    growth_rate := gr
                    education := education } })

/-- The document (if any) a row contributes, ignoring the exception
channel; meaningful on runs where no exception is raised. -/
def rowDoc (row : Row) : Option Document :=
  match processRow row with
  | Except.ok d => d
  | Except.error _ => none

/-- The whole loop of lines 51-80 over a row list, accumulating
`documents`; stops with the raised exception if any row raises. -/
def buildDocs : List Row → Except PyError (List Document)
  | [] => Except.ok []
  | r :: rs =>
      match processRow r with
      | Except.error e => Except.error e
      | Except.ok d =>
          match buildDocs rs with
          | Except.error e => Except.error e
          | Except.ok rest =>
              Except.ok (match d with | none => rest | some doc => doc :: rest)

/-- The four ways `create_index` (lines 33-92) can end: the data frame
was `None` (line 37-38); a Python exception was caught by the
`except` at line 90 (error shown, `None` returned); the filter left no
documents (lines 82-84, `"No documents created"` shown, `None`
returned); or the document list handed to the external indexing call
(lines 86-88). -/
inductive BuildOutcome : Type where
  | dataUnavailable : BuildOutcome
  | exceptionCaught : PyError → BuildOutcome
  | noDocuments : BuildOutcome
  | success : List Document → BuildOutcome
deriving DecidableEq, Repr

/-- `create_index`, as an outcome: `df.head(100)` is `take 100`, the
loop is `buildDocs`, the emptiness check is line 82. -/
def create_index_outcome : Option (List Row) → BuildOutcome
  | none => BuildOutcome.dataUnavailable
  | some df =>
      match buildDocs (df.take 100) with
      | Except.error e => BuildOutcome.exceptionCaught e
      | Except.ok docs =>
          if docs.isEmpty then BuildOutcome.noDocuments
          else BuildOutcome.success docs

/-- The value `create_index` returns to its caller: the document list
underlying the query engine on success, `None` on every failure path
(lines 38, 84, 92). -/
def create_index (df : Option (List Row)) : Option (List Document) :=
  match create_index_outcome df with
  | BuildOutcome.success docs => some docs
  | _ => none

/-- `load_data` (lines 23-30): `pd.read_csv` either yields a table or
raises; the `except` turns any raise into a displayed error and
`None`. The I/O itself is out of scope, so the read's result is the
argument. -/
def load_data (readResult : Except String (List Row)) : Option (List Row) :=
  match readResult with
  | Except.ok df => some df
  | Except.error _ => none

/-- The growth-rate column as a numeric series: `df[growth_col]` with
NA entries skipped, as pandas reductions do by default (`skipna`).
Defined for numeric columns; on an object column pandas `mean` would
raise, so the metric theorems assume an all-numeric column. -/
def seriesVals (df : List Row) : List ℚ :=
  df.filterMap (fun r =>
    match r.growthRate with
    | Cell.num q => some q
    | _ => none)

/-- `df[growth_col].mean()` (line 118): NaN (here `none`) on an empty
or all-NA column. -/
def avgMetric (df : List Row) : Option ℚ :=
  if (seriesVals df).isEmpty then none
  else some ((seriesVals df).sum / (seriesVals df).length)

/-- `df[growth_col].max()` (line 120): NaN (here `none`) on an empty
or all-NA column. -/
def maxMetric (df : List Row) : Option ℚ :=
  (seriesVals df).max?

/-- Follows the spec's words: a record is valid when neither its job
title nor its growth rate is missing ("a record missing title or growth
rate is excluded from the corpus"). -/
def validRow (r : Row) : Bool :=
  !pdIsna r.jobTitle && !pdIsna r.growthRate

/-! ## Helper lemmas -/

lemma dropWhile_template_front (t : List Char) :
    List.dropWhile pySpace (("\n                Job Title: ").data ++ t)
      = ("Job Title: ").data ++ t := rfl

lemma dropWhile_template_back (t : List Char) :
    List.dropWhile pySpace ((" field.\n                ").data.reverse ++ t)
      = (" field.").data.reverse ++ t := rfl

lemma pyStrip_data (s : String) :
    (pyStrip s).data = ((s.data.dropWhile pySpace).reverse.dropWhile pySpace).reverse := rfl

/-- `.strip()` of the filled template: exactly the leading newline and
indentation and the trailing newline and indentation are removed,
whatever the interpolated values are. -/
lemma pyStrip_text_content (jt soc gr ann edu sk : String) (hg : Bool) :
    pyStrip (text_content jt soc gr ann edu sk hg) =
      "Job Title: " ++ (jt ++
      ("\n                SOC Code: " ++ (soc ++
      ("\n                Growth Rate: " ++ (gr ++
      ("% projected growth from 2023 to 2033\n                Annual Job Openings: " ++ (ann ++
      ("\n                Education Required: " ++ (edu ++
      ("\n                Key Skills Needed: " ++ (sk ++
      ("\n                \n                " ++ (jt ++
      (" is experiencing " ++ (gr ++
      ("% growth through 2033. This role typically requires " ++ (pyLower edu ++
      (" and offers career prospects in a " ++
      ((if hg then "high-growth" else "stable") ++
      " field."))))))))))))))))))) := by
  apply String.ext
  rw [pyStrip_data]
  cases hg <;>
  · simp only [text_content, if_true, if_false, Bool.false_eq_true, String.data_append]
    rw [dropWhile_template_front]
    simp only [List.reverse_append, List.append_assoc]
    rw [dropWhile_template_back]
    simp only [List.reverse_append, List.reverse_reverse, List.append_assoc]

/-- The stripped text block ends with the qualifier sentence suffix. -/
lemma text_content_suffix (jt soc gr ann edu sk : String) (hg : Bool) :
    ∃ rest : String, pyStrip (text_content jt soc gr ann edu sk hg)
      = rest ++ ("a " ++ ((if hg then "high-growth" else "stable") ++ " field.")) := by
  refine ⟨"Job Title: " ++ (jt ++
      ("\n                SOC Code: " ++ (soc ++
      ("\n                Growth Rate: " ++ (gr ++
      ("% projected growth from 2023 to 2033\n                Annual Job Openings: " ++ (ann ++
      ("\n                Education Required: " ++ (edu ++
      ("\n                Key Skills Needed: " ++ (sk ++
      ("\n                \n                " ++ (jt ++
      (" is experiencing " ++ (gr ++
      ("% growth through 2033. This role typically requires " ++ (pyLower edu ++
      " and offers career prospects in "))))))))))))))))), ?_⟩
  rw [pyStrip_text_content]
  rw [show (" and offers career prospects in a " : String)
      = " and offers career prospects in " ++ "a " from rfl]
  simp only [String.append_assoc]

/-- Unfolding of the loop body on a kept row (title present, numeric
growth rate). -/
lemma processRow_valid (row : Row) (q : ℚ)
    (ht : pdIsna row.jobTitle = false) (hg : row.growthRate = Cell.num q) :
    processRow row = Except.ok (some
      { text := pyStrip (text_content (pyStrip (pyStr row.jobTitle)) (pyStr row.socCode)
          (numRepr q) (annual_openings_of row) (education_of row) (skills_of row)
          (decide (15 < q)))
        metadata :=
          { soc_code := pyStr row.socCode
            job_title := pyStrip (pyStr row.jobTitle)
            growth_rate := q
            education := education_of row } }) := by
  have hq : pdIsna (Cell.num q) = false := rfl
  simp [processRow, ht, hg, hq, pyGt15, pyFloat, pyStr]

/-- A row missing title or growth rate is skipped without error. -/
lemma processRow_skip (row : Row) (h : validRow row = false) :
    processRow row = Except.ok none := by
  unfold processRow
  have h2 : (pdIsna row.jobTitle || pdIsna row.growthRate) = true := by
    unfold validRow at h
    cases hj : pdIsna row.jobTitle <;> cases hgr : pdIsna row.growthRate <;>
      simp [hj, hgr] at h ⊢
  rw [h2]
  rfl

/-- A present title with a string-valued growth rate raises `TypeError`
at the `growth_rate > 15` comparison. -/
lemma processRow_raise (row : Row) (s : String)
    (ht : pdIsna row.jobTitle = false) (hg : row.growthRate = Cell.str s) :
    processRow row = Except.error PyError.typeError := by
  have hs : pdIsna (Cell.str s) = false := rfl
  simp [processRow, ht, hg, hs, pyGt15]

/-- Exhaustive behaviour of the loop body: either it returns normally
(with `rowDoc` as its contribution), or the row has a present title and
a string-valued growth rate and `TypeError` is raised. -/
lemma processRow_cases (r : Row) :
    processRow r = Except.ok (rowDoc r) ∨
    (pdIsna r.jobTitle = false ∧ (∃ s, r.growthRate = Cell.str s) ∧
      processRow r = Except.error PyError.typeError) := by
  by_cases hskip : (pdIsna r.jobTitle || pdIsna r.growthRate) = true
  · left
    have h1 : processRow r = Except.ok none := by
      unfold processRow
      rw [if_pos hskip]
    rw [h1, rowDoc, h1]
  · have ht : pdIsna r.jobTitle = false := by
      cases hjt : pdIsna r.jobTitle
      · rfl
      · exact absurd (by rw [hjt, Bool.true_or]) hskip
    have hgrna : pdIsna r.growthRate = false := by
      cases hgr : pdIsna r.growthRate
      · rfl
      · exact absurd (by rw [hgr, Bool.or_true]) hskip
    cases hgr : r.growthRate with
    | na => rw [hgr] at hgrna; exact absurd hgrna (by simp [pdIsna])
    | num q =>
        left
        have h1 := processRow_valid r q ht hgr
        rw [h1, rowDoc, h1]
    | str s =>
        right
        exact ⟨ht, ⟨s, rfl⟩, processRow_raise r s ht hgr⟩

/-- A row whose growth-rate cell is not a string returns normally. -/
lemma processRow_ok (r : Row) (h : isStrCell r.growthRate = false) :
    processRow r = Except.ok (rowDoc r) := by
  rcases processRow_cases r with h1 | ⟨_, ⟨s, hs⟩, _⟩
  · exact h1
  · rw [hs] at h
    exact absurd h (by simp [isStrCell])

/-- A skipped row contributes no document. -/
lemma rowDoc_eq_none (r : Row) (h : validRow r = false) : rowDoc r = none := by
  rw [rowDoc, processRow_skip r h]

/-- With no string-valued growth rates, the loop completes and the
document list is the `filterMap` of the per-row contribution. -/
lemma buildDocs_ok (l : List Row) (h : ∀ r ∈ l, isStrCell r.growthRate = false) :
    buildDocs l = Except.ok (l.filterMap rowDoc) := by
  induction l with
  | nil => rfl
  | cons r rs ih =>
      have h1 := processRow_ok r (h r (by simp))
      have h2 := ih (fun x hx => h x (by simp [hx]))
      unfold buildDocs
      rw [h1, h2]
      cases hd : rowDoc r <;> simp [List.filterMap_cons, hd]

/-- Whenever the loop completes, the document list is the `filterMap`
of the per-row contribution (no hypothesis needed). -/
lemma buildDocs_ok_elim (l : List Row) (docs : List Document)
    (h : buildDocs l = Except.ok docs) : docs = l.filterMap rowDoc := by
  induction l generalizing docs with
  | nil =>
      unfold buildDocs at h
      simpa using (Except.ok.inj h).symm
  | cons r rs ih =>
      unfold buildDocs at h
      cases hp : processRow r with
      | error e => rw [hp] at h; cases h
      | ok d =>
          rw [hp] at h
          cases hb : buildDocs rs with
          | error e => rw [hb] at h; cases h
          | ok rest =>
              rw [hb] at h
              have hrest := ih rest hb
              have hd : rowDoc r = d := by rw [rowDoc, hp]
              cases d with
              | none =>
                  simp only [List.filterMap_cons, hd]
                  rw [← hrest]
                  exact (Except.ok.inj h).symm
              | some doc =>
                  simp only [List.filterMap_cons, hd]
                  rw [← hrest]
                  exact (Except.ok.inj h).symm

/-- If some row of the list has a present title and a string growth
rate, the loop raises `TypeError`. -/
lemma buildDocs_error_of_str (l : List Row)
    (h : ∃ r ∈ l, pdIsna r.jobTitle = false ∧ ∃ s, r.growthRate = Cell.str s) :
    buildDocs l = Except.error PyError.typeError := by
  induction l with
  | nil => simp at h
  | cons r rs ih =>
      obtain ⟨x, hx, hxt, s, hxs⟩ := h
      rcases List.mem_cons.mp hx with heq | hmem
      · subst heq
        unfold buildDocs
        rw [processRow_raise x s hxt hxs]
      · have h1 := ih ⟨x, hmem, hxt, s, hxs⟩
        unfold buildDocs
        rcases processRow_cases r with h2 | ⟨_, _, h2⟩ <;> rw [h2]
        rw [h1]

/-- Rows with all fields skipped produce the empty document list. -/
lemma buildDocs_all_invalid (l : List Row) (h : ∀ r ∈ l, validRow r = false) :
    buildDocs l = Except.ok [] := by
  induction l with
  | nil => rfl
  | cons r rs ih =>
      unfold buildDocs
      rw [processRow_skip r (h r (by simp)), ih (fun x hx => h x (by simp [hx]))]

/-- Under no-string growth rates, one document per valid row. -/
lemma filterMap_rowDoc_length (l : List Row)
    (h : ∀ r ∈ l, isStrCell r.growthRate = false) :
    (l.filterMap rowDoc).length = l.countP validRow := by
  induction l with
  | nil => rfl
  | cons r rs ih =>
      have ht := ih (fun x hx => h x (by simp [hx]))
      cases hv : validRow r
      · have hd : rowDoc r = none := rowDoc_eq_none r hv
        simp [List.filterMap_cons, hd, List.countP_cons, hv, ht]
      · have hex : ∃ d, rowDoc r = some d := by
          have hjt : pdIsna r.jobTitle = false := by
            unfold validRow at hv
            cases hj : pdIsna r.jobTitle
            · rfl
            · rw [hj] at hv; simp at hv
          have hgrna : pdIsna r.growthRate = false := by
            unfold validRow at hv
            cases hg : pdIsna r.growthRate
            · rfl
            · rw [hg] at hv; simp at hv
          cases hgr : r.growthRate with
          | na => rw [hgr] at hgrna; exact absurd hgrna (by simp [pdIsna])
          | num q =>
              have hp : (rowDoc r).isSome = true := by
                rw [rowDoc, processRow_valid r q hjt hgr]
                rfl
              exact Option.isSome_iff_exists.mp hp
          | str s =>
              have h2 := h r (by simp)
              rw [hgr] at h2
              exact absurd h2 (by simp [isStrCell])
        obtain ⟨d, hd⟩ := hex
        simp [List.filterMap_cons, hd, List.countP_cons, hv, ht]

/-- The numeric value of a growth cell (`0` on non-numeric cells; only
used under an all-numeric hypothesis). -/
def growthOf (r : Row) : ℚ :=
  match r.growthRate with
  | Cell.num q => q
  | _ => 0

/-- On an all-numeric column the series is the whole column. -/
lemma seriesVals_eq_map (df : List Row)
    (h : ∀ r ∈ df, isNumCell r.growthRate = true) :
    seriesVals df = df.map growthOf := by
  induction df with
  | nil => rfl
  | cons r rs ih =>
      have hq : ∃ q, r.growthRate = Cell.num q := by
        have h1 := h r (by simp)
        cases hgr : r.growthRate with
        | num q => exact ⟨q, rfl⟩
        | na => rw [hgr] at h1; exact absurd h1 (by simp [isNumCell])
        | str s => rw [hgr] at h1; exact absurd h1 (by simp [isNumCell])
      obtain ⟨q, hq⟩ := hq
      have ht := ih (fun x hx => h x (by simp [hx]))
      simp [seriesVals, List.filterMap_cons, hq, growthOf] at ht ⊢
      exact ht

lemma foldl_max_mem (a : ℚ) (l : List ℚ) : l.foldl max a ∈ a :: l := by
  induction l generalizing a with
  | nil => simp
  | cons b l ih =>
      rw [List.foldl_cons]
      rcases List.mem_cons.mp (ih (max a b)) with h2 | h2
      · rcases max_choice a b with hm | hm
        · rw [h2, hm]
          exact List.mem_cons_self a (b :: l)
        · rw [h2, hm]
          exact List.mem_cons_of_mem a (List.mem_cons_self b l)
      · exact List.mem_cons_of_mem a (List.mem_cons_of_mem b h2)

lemma le_foldl_start (a : ℚ) (l : List ℚ) : a ≤ l.foldl max a := by
  induction l generalizing a with
  | nil => exact le_refl a
  | cons b l ih => exact le_trans (le_max_left a b) (ih (max a b))

lemma le_foldl_max (a : ℚ) (l : List ℚ) : ∀ x ∈ a :: l, x ≤ l.foldl max a := by
  induction l generalizing a with
  | nil => simp
  | cons b l ih =>
      intro x hx
      rw [List.foldl_cons]
      rcases List.mem_cons.mp hx with h2 | h2
      · rw [h2]
        exact le_trans (le_max_left a b) (le_foldl_start (max a b) l)
      · rcases List.mem_cons.mp h2 with h3 | h3
        · rw [h3]
          exact le_trans (le_max_right a b) (le_foldl_start (max a b) l)
        · exact ih (max a b) x (by simp [h3])

/-- `List.max?` of a nonempty rational list is its maximum. -/
lemma max?_spec (l : List ℚ) (hne : l ≠ []) :
    ∃ m, l.max? = some m ∧ m ∈ l ∧ ∀ x ∈ l, x ≤ m := by
  cases l with
  | nil => exact absurd rfl hne
  | cons a t => exact ⟨t.foldl max a, rfl, foldl_max_mem a t, le_foldl_max a t⟩

/-- Unfolding of the builder's outcome on a present table. -/
lemma create_index_outcome_some (df : List Row) :
    create_index_outcome (some df) =
      match buildDocs (df.take 100) with
      | Except.error e => BuildOutcome.exceptionCaught e
      | Except.ok docs =>
          if docs.isEmpty then BuildOutcome.noDocuments
          else BuildOutcome.success docs := rfl

/-- When the loop succeeds with a nonempty document list, the builder
returns it. -/
lemma create_index_of_buildDocs (df : List Row) (docs : List Document)
    (hb : buildDocs (df.take 100) = Except.ok docs) (hne : docs ≠ []) :
    create_index (some df) = some docs := by
  unfold create_index
  rw [create_index_outcome_some, hb]
  simp [List.isEmpty_iff, hne]

/-- Conversely, a returned document list comes from a successful,
nonempty loop run. -/
lemma create_index_some_elim (df : List Row) (docs : List Document)
    (h : create_index (some df) = some docs) :
    buildDocs (df.take 100) = Except.ok docs ∧ docs ≠ [] := by
  unfold create_index at h
  rw [create_index_outcome_some] at h
  cases hb : buildDocs (df.take 100) with
  | error e =>
      rw [hb] at h
      simp at h
  | ok ds =>
      rw [hb] at h
      cases hde : ds.isEmpty
      · have hds : ds = docs := by simpa [hde] using h
        subst hds
        exact ⟨rfl, by simpa [List.isEmpty_iff] using hde⟩
      · exfalso
        simp [hde] at h

/-! ## Sample rows for concrete instantiations -/

/-- A fully populated valid row (numeric growth rate 6). -/
def rowGood : Row :=
  { socCode := Cell.str "29-1141", jobTitle := Cell.str "Registered Nurse"
    growthRate := Cell.num 6, annualOpenings := Cell.num 194500
    education := Cell.str "Bachelor's degree", skills := Cell.str "Critical thinking" }

/-- A valid row sitting exactly on the 15 % threshold, with absent
openings and skills. -/
def rowBoundary : Row :=
  { socCode := Cell.str "11-1011", jobTitle := Cell.str "Analyst"
    growthRate := Cell.num 15, annualOpenings := Cell.na
    education := Cell.str "Doctoral degree", skills := Cell.na }

/-- A row with a missing job title. -/
def rowMissingTitle : Row :=
  { socCode := Cell.str "00-0000", jobTitle := Cell.na
    growthRate := Cell.num 12, annualOpenings := Cell.na
    education := Cell.na, skills := Cell.na }

/-- A row with a missing growth rate. -/
def rowMissingGrowth : Row :=
  { socCode := Cell.str "00-0001", jobTitle := Cell.str "Welder"
    growthRate := Cell.na, annualOpenings := Cell.na
    education := Cell.na, skills := Cell.na }

/-- A row whose growth rate is stored as the string "20", which is
convertible to a number. -/
def rowStrConvertible : Row :=
  { socCode := Cell.str "00-0002", jobTitle := Cell.str "Data Clerk"
    growthRate := Cell.str "20", annualOpenings := Cell.na
    education := Cell.na, skills := Cell.na }

/-- A row whose growth rate is stored as the string "n/a", which is not
convertible to a number. -/
def rowStrBad : Row :=
  { socCode := Cell.str "00-0003", jobTitle := Cell.str "Cashier"
    growthRate := Cell.str "n/a", annualOpenings := Cell.na
    education := Cell.na, skills := Cell.na }

/-- 101-row table: an invalid first row followed by 100 valid rows, so
the table holds 100 valid records but only 99 fall in the first 100
rows. -/
def dfShifted : List Row :=
  rowMissingTitle :: List.replicate 100 rowGood

/-- 103-row table whose 3 valid rows all sit beyond row 100. -/
def dfTail3 : List Row :=
  List.replicate 100 rowMissingTitle ++ [rowGood, rowGood, rowGood]

/-! ## Claim theorems -/

/-- C1: for every row the builder keeps (present title, numeric growth
rate), the trailing descriptive sentence of the generated text block
uses the qualifier "high-growth" when the growth rate is strictly
greater than 15, and "stable" when it is at most 15 (including exactly
15). -/
theorem qualifier_threshold (row : Row) (q : ℚ)
    (ht : pdIsna row.jobTitle = false) (hg : row.growthRate = Cell.num q) :
    ∃ d : Document, processRow row = Except.ok (some d) ∧
      (15 < q → ∃ p : String, d.text = p ++ "a high-growth field.") ∧
      (q ≤ 15 → ∃ p : String, d.text = p ++ "a stable field.") := by
  refine ⟨_, processRow_valid row q ht hg, ?_, ?_⟩
  · intro hlt
    obtain ⟨p, hp⟩ := text_content_suffix (pyStrip (pyStr row.jobTitle)) (pyStr row.socCode)
      (numRepr q) (annual_openings_of row) (education_of row) (skills_of row) (decide (15 < q))
    refine ⟨p, ?_⟩
    show pyStrip (text_content _ _ _ _ _ _ _) = _
    rw [hp, decide_eq_true hlt]
    rw [if_pos rfl]
    rfl
  · intro hle
    obtain ⟨p, hp⟩ := text_content_suffix (pyStrip (pyStr row.jobTitle)) (pyStr row.socCode)
      (numRepr q) (annual_openings_of row) (education_of row) (skills_of row) (decide (15 < q))
    refine ⟨p, ?_⟩
    show pyStrip (text_content _ _ _ _ _ _ _) = _
    rw [hp, decide_eq_false (not_lt.mpr hle)]
    rw [if_neg (by simp)]
    rfl

/-- Witness for C1 at the boundary growth rate 15: hypotheses hold and
the theorem applies. -/
theorem qualifier_threshold_witness :
    ∃ d : Document, processRow rowBoundary = Except.ok (some d) ∧
      (15 < (15 : ℚ) → ∃ p : String, d.text = p ++ "a high-growth field.") ∧
      ((15 : ℚ) ≤ 15 → ∃ p : String, d.text = p ++ "a stable field.") :=
  qualifier_threshold rowBoundary 15 (by decide) rfl

/-- C2: whenever the builder returns a document set, it is exactly the
per-row contributions of the first 100 rows, and a row with a missing
title or growth rate contributes no document. -/
theorem missing_fields_excluded (df : List Row) (docs : List Document) (r : Row)
    (h : create_index (some df) = some docs) (_hr : r ∈ df.take 100)
    (hinv : validRow r = false) :
    rowDoc r = none ∧ docs = (df.take 100).filterMap rowDoc := by
  obtain ⟨hb, _⟩ := create_index_some_elim df docs h
  exact ⟨rowDoc_eq_none r hinv, buildDocs_ok_elim _ docs hb⟩

/-- Witness for C2 on a two-row table whose first row misses its
title. -/
theorem missing_fields_excluded_witness :
    rowDoc rowMissingTitle = none ∧
      (([rowMissingTitle, rowGood].take 100).filterMap rowDoc)
        = (([rowMissingTitle, rowGood].take 100).filterMap rowDoc) :=
  missing_fields_excluded [rowMissingTitle, rowGood]
    (([rowMissingTitle, rowGood].take 100).filterMap rowDoc) rowMissingTitle
    rfl (by decide) rfl

/-- C3 counterexample: the growth-rate string "n/a" is present but not
coercible to a number; the claim says the row is skipped and the valid
remainder still indexed, but the builder returns `None` and emits no
document at all. -/
theorem coercion_failure_counterexample :
    pdIsna rowStrBad.growthRate = false ∧ parsePyFloat "n/a" = none ∧
      validRow rowGood = true ∧
      create_index (some [rowStrBad, rowGood]) = none :=
  ⟨rfl, rfl, rfl, rfl⟩

/-- C3 amended: a present title with a string growth rate raises inside
the loop; the top-level handler catches it, so the app does not crash,
but the whole build aborts with `None` — no documents are emitted for
any row. -/
theorem coercion_failure_aborts_build (df : List Row) (r : Row) (s : String)
    (hr : r ∈ df.take 100) (ht : pdIsna r.jobTitle = false)
    (hs : r.growthRate = Cell.str s) :
    create_index_outcome (some df) = BuildOutcome.exceptionCaught PyError.typeError ∧
      create_index (some df) = none := by
  have hb := buildDocs_error_of_str (df.take 100) ⟨r, hr, ht, s, hs⟩
  constructor
  · rw [create_index_outcome_some, hb]
  · unfold create_index
    rw [create_index_outcome_some, hb]

/-- Witness for the amended C3. -/
theorem coercion_failure_aborts_build_witness :
    create_index_outcome (some [rowStrBad, rowGood])
        = BuildOutcome.exceptionCaught PyError.typeError ∧
      create_index (some [rowStrBad, rowGood]) = none :=
  coercion_failure_aborts_build [rowStrBad, rowGood] rowStrBad "n/a"
    (by decide) rfl rfl

/-- Projection: the growth_rate metadata of a document. -/
def docGrowthRate (d : Document) : ℚ :=
  d.metadata.growth_rate

/-- C4 counterexample: the growth-rate string "20" is convertible to a
number, but instead of a document with metadata 20.0 the build aborts:
no document is emitted for the row (or any row). -/
theorem convertible_string_counterexample :
    parsePyFloat "20" = some 20 ∧
      pdIsna rowStrConvertible.growthRate = false ∧
      create_index (some [rowStrConvertible]) = none := by
  refine ⟨?_, rfl, rfl⟩
  have h1 : parsePyFloat "20" = some ((1 : ℚ) * ((20 : ℕ) : ℚ)) := rfl
  rw [h1]
  norm_num

/-- C4 amended: every document emitted from a numeric growth-rate cell
carries growth_rate metadata exactly equal to the source value; a
string-stored growth rate (convertible or not) never yields a document
because the `> 15` comparison raises before `float` is reached. -/
theorem metadata_growth_rate_exact (row r2 : Row) (q : ℚ) (s : String)
    (ht : pdIsna row.jobTitle = false) (hg : row.growthRate = Cell.num q)
    (ht2 : pdIsna r2.jobTitle = false) (hg2 : r2.growthRate = Cell.str s) :
    (rowDoc row).map docGrowthRate = some q ∧
      processRow r2 = Except.error PyError.typeError := by
  constructor
  · rw [rowDoc, processRow_valid row q ht hg]
    rfl
  · exact processRow_raise r2 s ht2 hg2

/-- Witness for the amended C4. -/
theorem metadata_growth_rate_exact_witness :
    (rowDoc rowGood).map docGrowthRate = some 6 ∧
      processRow rowStrConvertible = Except.error PyError.typeError :=
  metadata_growth_rate_exact rowGood rowStrConvertible 6 "20"
    (by decide) rfl (by decide) rfl

set_option maxRecDepth 4000 in
/-- C5 counterexample: `dfShifted` holds 100 valid records (its rows
2-101), all within "the first 100 valid records", yet the builder
produces only 99 documents — the cap is on the first 100 rows, so the
101st row's valid record is dropped. -/
theorem first100_counterexample :
    (dfShifted.filter validRow).length = 100 ∧
      (create_index (some dfShifted)).map List.length = some 99 := by
  constructor
  · decide
  · have hnostr : ∀ r ∈ dfShifted.take 100, isStrCell r.growthRate = false := by decide
    have hb := buildDocs_ok (dfShifted.take 100) hnostr
    have hlen := filterMap_rowDoc_length (dfShifted.take 100) hnostr
    have hcount : (dfShifted.take 100).countP validRow = 99 := by decide
    rw [hcount] at hlen
    have hne : (dfShifted.take 100).filterMap rowDoc ≠ [] := by
      intro h0
      rw [h0] at hlen
      exact absurd hlen (by decide)
    rw [create_index_of_buildDocs dfShifted _ hb hne]
    simp only [Option.map_some']
    rw [hlen]

/-- C5 amended: the builder derives exactly one document per valid
record among the first 100 ROWS of the table (not the first 100 valid
records), provided no growth-rate cell in that window is a string. -/
theorem one_doc_per_valid_row_in_window (df : List Row)
    (hnostr : ∀ r ∈ df.take 100, isStrCell r.growthRate = false)
    (hvalid : (df.take 100).countP validRow ≠ 0) :
    create_index (some df) = some ((df.take 100).filterMap rowDoc) ∧
      ((df.take 100).filterMap rowDoc).length = (df.take 100).countP validRow := by
  have hb := buildDocs_ok (df.take 100) hnostr
  have hlen := filterMap_rowDoc_length (df.take 100) hnostr
  have hne : (df.take 100).filterMap rowDoc ≠ [] := by
    intro h0
    rw [h0] at hlen
    have h2 : (df.take 100).countP validRow = 0 := by simpa using hlen.symm
    exact hvalid h2
  exact ⟨create_index_of_buildDocs df _ hb hne, hlen⟩

/-- Witness for the amended C5. -/
theorem one_doc_per_valid_row_in_window_witness :
    create_index (some [rowGood, rowMissingTitle])
        = some (([rowGood, rowMissingTitle].take 100).filterMap rowDoc) ∧
      (([rowGood, rowMissingTitle].take 100).filterMap rowDoc).length
        = ([rowGood, rowMissingTitle].take 100).countP validRow :=
  one_doc_per_valid_row_in_window [rowGood, rowMissingTitle] (by decide) (by decide)

/-- C6 counterexample: `dfTail3` contains exactly 3 valid rows (and no
more), but they all sit beyond row 100, so the builder produces no
documents at all and returns `None` instead of 3 documents. -/
theorem tail_valid_rows_counterexample :
    (dfTail3.filter validRow).length = 3 ∧ create_index (some dfTail3) = none := by
  constructor
  · decide
  · have hb : buildDocs (dfTail3.take 100) = Except.ok [] :=
      buildDocs_all_invalid _ (by decide)
    unfold create_index
    rw [create_index_outcome_some, hb]
    rfl

/-- C6 amended: a table whose FIRST 100 ROWS contain exactly 3 valid
rows (and no string growth rates) yields exactly 3 documents — no
padding, no truncation. -/
theorem three_valid_rows_in_window (df : List Row)
    (hnostr : ∀ r ∈ df.take 100, isStrCell r.growthRate = false)
    (h3 : (df.take 100).countP validRow = 3) :
    (create_index (some df)).map List.length = some 3 := by
  have hb := buildDocs_ok (df.take 100) hnostr
  have hlen := filterMap_rowDoc_length (df.take 100) hnostr
  rw [h3] at hlen
  have hne : (df.take 100).filterMap rowDoc ≠ [] := by
    intro h0
    rw [h0] at hlen
    exact absurd hlen (by decide)
  rw [create_index_of_buildDocs df _ hb hne]
  simp only [Option.map_some']
  rw [hlen]

/-- Witness for the amended C6. -/
theorem three_valid_rows_in_window_witness :
    (create_index (some [rowGood, rowMissingTitle, rowGood, rowGood])).map List.length
      = some 3 :=
  three_valid_rows_in_window [rowGood, rowMissingTitle, rowGood, rowGood]
    (by decide) (by decide)

/-- C7: when none of the first 100 rows is valid, the builder ends in
the no-documents error condition (error banner `"No documents created"`)
and returns `None` — no index is built. -/
theorem no_documents_error (df : List Row)
    (h : ∀ r ∈ df.take 100, validRow r = false) :
    create_index_outcome (some df) = BuildOutcome.noDocuments ∧
      create_index (some df) = none := by
  have hb := buildDocs_all_invalid (df.take 100) h
  constructor
  · rw [create_index_outcome_some, hb]
    rfl
  · unfold create_index
    rw [create_index_outcome_some, hb]
    rfl

/-- Witness for C7. -/
theorem no_documents_error_witness :
    create_index_outcome (some [rowMissingTitle, rowMissingGrowth])
        = BuildOutcome.noDocuments ∧
      create_index (some [rowMissingTitle, rowMissingGrowth]) = none :=
  no_documents_error [rowMissingTitle, rowMissingGrowth] (by decide)

/-- C8: on a nonempty all-numeric growth column, the displayed average
metric is the arithmetic mean of the growth-rate column over ALL rows
of the table, and the displayed maximum metric is attained in and
bounds the whole column — not just the 100 rows used for indexing. -/
theorem summary_metrics_full_table (df : List Row)
    (hall : ∀ r ∈ df, isNumCell r.growthRate = true) (hne : df ≠ []) :
    avgMetric df = some ((df.map growthOf).sum / (df.map growthOf).length) ∧
      ∃ m, maxMetric df = some m ∧ m ∈ df.map growthOf ∧ ∀ x ∈ df.map growthOf, x ≤ m := by
  have hsv : seriesVals df = df.map growthOf := seriesVals_eq_map df hall
  have hnemap : df.map growthOf ≠ [] := by
    intro h0
    exact hne (List.map_eq_nil_iff.mp h0)
  constructor
  · unfold avgMetric
    rw [hsv, if_neg (by simpa [List.isEmpty_iff] using hnemap)]
  · unfold maxMetric
    rw [hsv]
    exact max?_spec _ hnemap

/-- Witness for C8 on a concrete two-row table. -/
theorem summary_metrics_full_table_witness :
    avgMetric [rowGood, rowBoundary]
        = some (([rowGood, rowBoundary].map growthOf).sum
            / ([rowGood, rowBoundary].map growthOf).length) ∧
      ∃ m, maxMetric [rowGood, rowBoundary] = some m ∧
        m ∈ [rowGood, rowBoundary].map growthOf ∧
        ∀ x ∈ [rowGood, rowBoundary].map growthOf, x ≤ m :=
  summary_metrics_full_table [rowGood, rowBoundary] (by decide) (by decide)

/-- C9: for every kept row, the text block carries the placeholder
"Data not available" exactly when annual openings is absent,
"Not specified" exactly when education is absent, and
"Skills data not available" exactly when skills is absent; present
fields are rendered by `str(...)` instead, and each labelled field
occurs in the generated text. -/
theorem placeholder_fields (row : Row) (q : ℚ)
    (ht : pdIsna row.jobTitle = false) (hg : row.growthRate = Cell.num q) :
    ∃ d : Document, processRow row = Except.ok (some d) ∧
      (∃ a b : String,
        d.text = a ++ (("Annual Job Openings: " ++ annual_openings_of row) ++ b)) ∧
      (∃ a b : String,
        d.text = a ++ (("Education Required: " ++ education_of row) ++ b)) ∧
      (∃ a b : String,
        d.text = a ++ (("Key Skills Needed: " ++ skills_of row) ++ b)) ∧
      (pdIsna row.annualOpenings = true → annual_openings_of row = "Data not available") ∧
      (pdIsna row.annualOpenings = false → annual_openings_of row = pyStr row.annualOpenings) ∧
      (pdIsna row.education = true → education_of row = "Not specified") ∧
      (pdIsna row.education = false → education_of row = pyStr row.education) ∧
      (pdIsna row.skills = true → skills_of row = "Skills data not available") ∧
      (pdIsna row.skills = false → skills_of row = pyStr row.skills) := by
  refine ⟨_, processRow_valid row q ht hg, ?_, ?_, ?_, ?_, ?_, ?_, ?_, ?_, ?_⟩
  · refine ⟨"Job Title: " ++ (pyStrip (pyStr row.jobTitle) ++
      ("\n                SOC Code: " ++ (pyStr row.socCode ++
      ("\n                Growth Rate: " ++ (numRepr q ++
      "% projected growth from 2023 to 2033\n                "))))),
      "\n                Education Required: " ++ (education_of row ++
      ("\n                Key Skills Needed: " ++ (skills_of row ++
      ("\n                \n                " ++ (pyStrip (pyStr row.jobTitle) ++
      (" is experiencing " ++ (numRepr q ++
      ("% growth through 2033. This role typically requires " ++
      (pyLower (education_of row) ++
      (" and offers career prospects in a " ++
      ((if decide (15 < q) then "high-growth" else "stable") ++
      " field."))))))))))), ?_⟩
    show pyStrip (text_content _ _ _ _ _ _ _) = _
    rw [pyStrip_text_content]
    rw [show ("% projected growth from 2023 to 2033\n                Annual Job Openings: " : String)
        = "% projected growth from 2023 to 2033\n                "
          ++ "Annual Job Openings: " from rfl]
    simp only [String.append_assoc]
  · refine ⟨"Job Title: " ++ (pyStrip (pyStr row.jobTitle) ++
      ("\n                SOC Code: " ++ (pyStr row.socCode ++
      ("\n                Growth Rate: " ++ (numRepr q ++
      ("% projected growth from 2023 to 2033\n                Annual Job Openings: " ++
      (annual_openings_of row ++ "\n                "))))))),
      "\n                Key Skills Needed: " ++ (skills_of row ++
      ("\n                \n                " ++ (pyStrip (pyStr row.jobTitle) ++
      (" is experiencing " ++ (numRepr q ++
      ("% growth through 2033. This role typically requires " ++
      (pyLower (education_of row) ++
      (" and offers career prospects in a " ++
      ((if decide (15 < q) then "high-growth" else "stable") ++
      " field."))))))))), ?_⟩
    show pyStrip (text_content _ _ _ _ _ _ _) = _
    rw [pyStrip_text_content]
    rw [show ("\n                Education Required: " : String)
        = "\n                " ++ "Education Required: " from rfl]
    simp only [String.append_assoc]
  · refine ⟨"Job Title: " ++ (pyStrip (pyStr row.jobTitle) ++
      ("\n                SOC Code: " ++ (pyStr row.socCode ++
      ("\n                Growth Rate: " ++ (numRepr q ++
      ("% projected growth from 2023 to 2033\n                Annual Job Openings: " ++
      (annual_openings_of row ++
      ("\n                Education Required: " ++ (education_of row ++
      "\n                "))))))))),
      "\n                \n                " ++ (pyStrip (pyStr row.jobTitle) ++
      (" is experiencing " ++ (numRepr q ++
      ("% growth through 2033. This role typically requires " ++
      (pyLower (education_of row) ++
      (" and offers career prospects in a " ++
      ((if decide (15 < q) then "high-growth" else "stable") ++
      " field."))))))), ?_⟩
    show pyStrip (text_content _ _ _ _ _ _ _) = _
    rw [pyStrip_text_content]
    rw [show ("\n                Key Skills Needed: " : String)
        = "\n                " ++ "Key Skills Needed: " from rfl]
    simp only [String.append_assoc]
  · intro h
    simp [annual_openings_of, h]
  · intro h
    simp [annual_openings_of, h]
  · intro h
    simp [education_of, h]
  · intro h
    simp [education_of, h]
  · intro h
    simp [skills_of, h]
  · intro h
    simp [skills_of, h]

/-- Witness for C9 on a row with absent openings and skills and a
present education field. -/
theorem placeholder_fields_witness :
    ∃ d : Document, processRow rowBoundary = Except.ok (some d) ∧
      (∃ a b : String,
        d.text = a ++ (("Annual Job Openings: " ++ annual_openings_of rowBoundary) ++ b)) ∧
      (∃ a b : String,
        d.text = a ++ (("Education Required: " ++ education_of rowBoundary) ++ b)) ∧
      (∃ a b : String,
        d.text = a ++ (("Key Skills Needed: " ++ skills_of rowBoundary) ++ b)) ∧
      (pdIsna rowBoundary.annualOpenings = true →
        annual_openings_of rowBoundary = "Data not available") ∧
      (pdIsna rowBoundary.annualOpenings = false →
        annual_openings_of rowBoundary = pyStr rowBoundary.annualOpenings) ∧
      (pdIsna rowBoundary.education = true → education_of rowBoundary = "Not specified") ∧
      (pdIsna rowBoundary.education = false →
        education_of rowBoundary = pyStr rowBoundary.education) ∧
      (pdIsna rowBoundary.skills = true →
        skills_of rowBoundary = "Skills data not available") ∧
      (pdIsna rowBoundary.skills = false →
        skills_of rowBoundary = pyStr rowBoundary.skills) :=
  placeholder_fields rowBoundary 15 (by decide) rfl

/-- C10: a failed file read makes the loader return `None`, and a
Python exception inside the builder loop is caught by the builder's
handler, which also returns `None`; neither function propagates the
exception to its caller. -/
theorem failures_return_none (readResult : Except String (List Row))
    (df? : Option (List Row)) (m : String) (e : PyError)
    (h1 : readResult = Except.error m)
    (h2 : ∀ df, df? = some df → buildDocs (df.take 100) = Except.error e) :
    load_data readResult = none ∧ create_index df? = none := by
  constructor
  · rw [h1]
    rfl
  · cases df? with
    | none => rfl
    | some df =>
        have hb := h2 df rfl
        unfold create_index
        rw [create_index_outcome_some, hb]

/-- Witness for C10. -/
theorem failures_return_none_witness :
    load_data (Except.error "file not found") = none ∧
      create_index (some [rowStrBad]) = none :=
  failures_return_none (Except.error "file not found") (some [rowStrBad])
    "file not found" PyError.typeError rfl
    (fun _ hdf => Option.some.inj hdf ▸ rfl)

end JobCoach
